import Mathlib

/-! # Auto-remediation engine: embedding and verified properties

Shallow embedding of `auto-remediation-engine` (packages `models`, `logger`,
`detector`, `remediators`, `teams`, `config` and the dispatch part of
`cmd/controller`), followed by the alert logic of `cost-detector`.

Conventions of the embedding:
* Go `string` is `String`, Go `int` is `Int` (only comparisons are made on it,
  except for the `rune` conversion, where the 32-bit truncation is explicit).
* `time.Time` is an integer instant; struct fields a Go literal leaves out take
  their zero value.
* Standard output is an explicit list of lines threaded through every function
  that logs. The clock prefix `[15:04:05]` of a line is not part of the model.
* A Go `error` result is `Option String`, `none` standing for `nil`.
* The process environment is an explicit map from variable names to values;
  `strconv.Atoi` and `strconv.ParseBool` follow the Go library for a 64-bit
  `int`, with `none` for a non-nil error.
-/

namespace AutoRemediation

/-! ## models -/

/-- Instant of `time.Time`; the zero value is `0`. -/
abbrev Time := Int

/-- Pod of `models.go`. -/
structure Pod where
  Name : String
  Namespace : String
  NodeName : String
  Status : String
  Restarts : Int
  CPU : String
  Memory : String
  CreatedAt : Time
deriving DecidableEq, Repr

/-- RemediationAction of `models.go`. -/
structure RemediationAction where
  ID : String
  /-- Field `Type` of the source (a reserved word here). -/
  Type_ : String
  Pod : Pod
  Status : String
  Reason : String
  Message : String
  GitCommit : String
  ExecutedAt : Time
  RequiresApproval : Bool
  ApprovedBy : String
deriving DecidableEq, Repr

/-- CertificateAlert of `models.go`. -/
structure CertificateAlert where
  Name : String
  ExpiresIn : Int
  ExpiresAt : Time
  Service : String
  Namespace : String
  Severity : String
deriving DecidableEq, Repr

/-- SecurityIssue of `models.go`. -/
structure SecurityIssue where
  Pod : Pod
  IssueType : String
  Description : String
  Remediation : String
  CanAutoFix : Bool
deriving DecidableEq, Repr

/-- ProbeIssue of `models.go`. -/
structure ProbeIssue where
  Pod : Pod
  ProbeType : String
  Message : String
deriving DecidableEq, Repr

/-! ## logger -/

/-- Lines written to standard output so far, oldest first. -/
abbrev Out := List String

/-- Logger of `logger.go`. -/
structure Logger where
  Level : String
deriving DecidableEq, Repr

/-- NewLogger of `logger.go`. -/
def NewLogger (level : String) : Logger := { Level := level }

/-- Logger.Info: prints one `INFO` line, whatever the level. -/
def Logger.Info (_l : Logger) (msg : String) (out : Out) : Out :=
  out ++ ["INFO: " ++ msg]

/-- Logger.Warning: prints one `WARN` line, whatever the level. -/
def Logger.Warning (_l : Logger) (msg : String) (out : Out) : Out :=
  out ++ ["WARN: " ++ msg]

/-- Logger.Error: prints one `ERROR` line, whatever the level. -/
def Logger.Error (_l : Logger) (msg : String) (out : Out) : Out :=
  out ++ ["ERROR: " ++ msg]

/-- Logger.Debug: prints one `DEBUG` line only when the level is `debug`. -/
def Logger.Debug (l : Logger) (msg : String) (out : Out) : Out :=
  if l.Level == "debug" then out ++ ["DEBUG: " ++ msg] else out

/-! ## detector -/

/-- Detector of `detector.go`. -/
structure Detector where
  log : Logger
deriving DecidableEq, Repr

/-- NewDetector of `detector.go`. -/
def NewDetector (log : Logger) : Detector := { log := log }

/-- Body of the `for _, pod := range pods` loop of `DetectPodCrashes`:
`crashed` is the slice built so far. -/
def detectPodCrashesLoop (d : Detector) : List Pod → List Pod → Out → List Pod × Out
  | [], crashed, out => (crashed, out)
  | pod :: rest, crashed, out =>
    if pod.Status == "CrashLoopBackOff" || pod.Restarts > 5 then
      detectPodCrashesLoop d rest (crashed ++ [pod])
        (d.log.Warning ("Found crashed pod: " ++ pod.Name) out)
    else
      detectPodCrashesLoop d rest crashed out

/-- Detector.DetectPodCrashes of `detector.go`. -/
def Detector.DetectPodCrashes (d : Detector) (pods : List Pod) (out : Out) : List Pod × Out :=
  detectPodCrashesLoop d pods [] (d.log.Info "Scanning for crashed pods..." out)

/-- Body of the `for _, pod := range pods` loop of `DetectOOMKilled`. -/
def detectOOMKilledLoop (d : Detector) : List Pod → List Pod → Out → List Pod × Out
  | [], oomPods, out => (oomPods, out)
  | pod :: rest, oomPods, out =>
    if pod.Status == "OOMKilled" then
      detectOOMKilledLoop d rest (oomPods ++ [pod])
        (d.log.Warning ("Found OOMKilled pod: " ++ pod.Name) out)
    else
      detectOOMKilledLoop d rest oomPods out

/-- Detector.DetectOOMKilled of `detector.go`. -/
def Detector.DetectOOMKilled (d : Detector) (pods : List Pod) (out : Out) : List Pod × Out :=
  detectOOMKilledLoop d pods [] (d.log.Info "Scanning for OOMKilled pods..." out)

/-- Detector.DetectSecurityIssues of `detector.go`: the slice is declared and returned. -/
def Detector.DetectSecurityIssues (d : Detector) (_pods : List Pod) (out : Out) :
    List SecurityIssue × Out :=
  let out := d.log.Info "Scanning for security issues..." out
  let issues : List SecurityIssue := []
  (issues, out)

/-- Detector.DetectMissingProbes of `detector.go`: the slice is declared and returned. -/
def Detector.DetectMissingProbes (d : Detector) (_pods : List Pod) (out : Out) :
    List ProbeIssue × Out :=
  let out := d.log.Info "Scanning for missing probes..." out
  let issues : List ProbeIssue := []
  (issues, out)

/-- Detector.DetectExpiringCerts of `detector.go`: the slice is declared and returned. -/
def Detector.DetectExpiringCerts (d : Detector) (_threshold : Int) (out : Out) :
    List CertificateAlert × Out :=
  let out := d.log.Info "Scanning for expiring certificates..." out
  let alerts : List CertificateAlert := []
  (alerts, out)

/-! ## remediators -/

/-- BaseRemediator of `remediator.go`. -/
structure BaseRemediator where
  log : Logger
deriving DecidableEq, Repr

/-- PodRestarter of `remediator.go` (embeds `BaseRemediator`). -/
structure PodRestarter extends BaseRemediator
deriving DecidableEq, Repr

/-- NewPodRestarter of `remediator.go`. -/
def NewPodRestarter (log : Logger) : PodRestarter := { log := log }

/-- PodRestarter.Remediate of `remediator.go`: the action literal sets five
fields, the others keep their zero value; the error is always `nil`. -/
def PodRestarter.Remediate (pr : PodRestarter) (pod : Pod) (out : Out) :
    (RemediationAction × Option String) × Out :=
  let out := pr.log.Info ("Restarting pod: " ++ pod.Name) out
  let action : RemediationAction :=
    { ID := ""
      Type_ := "pod_restart"
      Pod := pod
      Status := "completed"
      Reason := "Pod was in CrashLoopBackOff"
      Message := "Pod restarted successfully"
      GitCommit := ""
      ExecutedAt := 0
      RequiresApproval := false
      ApprovedBy := "" }
  ((action, none), out)

/-- PodRestarter.CanHandle of `remediator.go`. -/
def PodRestarter.CanHandle (_pr : PodRestarter) (pod : Pod) : Bool :=
  pod.Status == "CrashLoopBackOff" || pod.Restarts > 5

/-- MemoryIncreaser of `remediator.go` (embeds `BaseRemediator`). -/
structure MemoryIncreaser extends BaseRemediator where
  incrementPercent : Int
deriving DecidableEq, Repr

/-- NewMemoryIncreaser of `remediator.go`. -/
def NewMemoryIncreaser (log : Logger) (percent : Int) : MemoryIncreaser :=
  { log := log, incrementPercent := percent }

/-- Go conversion `rune(n)` of an `int`: the low 32 bits read as a signed number. -/
def toRune (n : Int) : Int :=
  let m := n % 2 ^ 32
  if m < 2 ^ 31 then m else m - 2 ^ 32

/-- Go conversion `string(r)` of a rune: the one-character string of the code
point `r`, and U+FFFD when `r` is not a valid code point. -/
def runeString (r : Int) : String :=
  if 0 ≤ r ∧ r ≤ 0x10FFFF ∧ ¬ (0xD800 ≤ r ∧ r ≤ 0xDFFF) then
    String.singleton (Char.ofNat r.toNat)
  else
    String.singleton (Char.ofNat 0xFFFD)

/-- MemoryIncreaser.Remediate of `remediator.go`: the action literal sets five
fields, the others keep their zero value; the error is always `nil`. -/
def MemoryIncreaser.Remediate (mi : MemoryIncreaser) (pod : Pod) (out : Out) :
    (RemediationAction × Option String) × Out :=
  let out := mi.log.Info ("Increasing memory for pod: " ++ pod.Name) out
  let action : RemediationAction :=
    { ID := ""
      Type_ := "memory_increase"
      Pod := pod
      Status := "completed"
      Reason := "Pod was OOMKilled"
      Message := "Memory increased by " ++ runeString (toRune mi.incrementPercent) ++ "%"
      GitCommit := ""
      ExecutedAt := 0
      RequiresApproval := false
      ApprovedBy := "" }
  ((action, none), out)

/-- MemoryIncreaser.CanHandle of `remediator.go`. -/
def MemoryIncreaser.CanHandle (_mi : MemoryIncreaser) (pod : Pod) : Bool :=
  pod.Status == "OOMKilled"

/-! ## teams -/

/-- TeamsClient of `teams.go`. -/
structure TeamsClient where
  webhookURL : String
  log : Logger
deriving DecidableEq, Repr

/-- NewTeamsClient of `teams.go`. -/
def NewTeamsClient (webhookURL : String) (log : Logger) : TeamsClient :=
  { webhookURL := webhookURL, log := log }

/-- The `fmt.Sprintf` of `SendRemediationAlert`: four `%s` verbs filled with
the action's type, pod name, pod namespace and reason. -/
def remediationMessage (action : RemediationAction) : String :=
  "✅ AUTO-REMEDIATED\nType: " ++ action.Type_ ++ "\nPod: " ++ action.Pod.Name ++
    "\nNamespace: " ++ action.Pod.Namespace ++ "\nReason: " ++ action.Reason

/-- TeamsClient.SendRemediationAlert of `teams.go`. The action is received by
value; the first component of the result is that parameter as it stands when
the function returns, the second the returned error. -/
def TeamsClient.SendRemediationAlert (tc : TeamsClient) (action : RemediationAction)
    (out : Out) : (RemediationAction × Option String) × Out :=
  let message := remediationMessage action
  let out := tc.log.Info ("Would send to Teams: " ++ message) out
  ((action, none), out)

/-! ## config -/

/-- The process environment: the value of each variable that is set. -/
abbrev Env := String → Option String

/-- Library function `os.Getenv`: the value of the variable, empty when unset. -/
def Getenv (env : Env) (key : String) : String :=
  (env key).getD ""

/-- Library function `strconv.ParseBool`: the twelve accepted spellings. -/
def ParseBool (str : String) : Option Bool :=
  if str = "1" ∨ str = "t" ∨ str = "T" ∨ str = "TRUE" ∨ str = "true" ∨ str = "True" then
    some true
  else if str = "0" ∨ str = "f" ∨ str = "F" ∨ str = "FALSE" ∨ str = "false"
      ∨ str = "False" then
    some false
  else
    none

/-- Value of a decimal digit, `none` for any other character. -/
def digitValue (c : Char) : Option Nat :=
  if '0' ≤ c ∧ c ≤ '9' then some (c.toNat - '0'.toNat) else none

/-- The digit loop of `strconv.Atoi`: `n = n*10 + digit`, a syntax error at the
first character that is not a digit. -/
def parseDigits : List Char → Nat → Option Nat
  | [], n => some n
  | ch :: rest, n =>
    match digitValue ch with
    | some d => parseDigits rest (n * 10 + d)
    | none => none

/-- Library function `strconv.Atoi` for a 64-bit `int`: an optional sign, then
at least one decimal digit and nothing else; a value outside the range of `int`
is an error. `none` stands for a non-nil error. -/
def Atoi (s : String) : Option Int :=
  match s.data with
  | [] => none
  | c :: cs =>
    let neg := c = '-'
    let digits := if c = '-' ∨ c = '+' then cs else c :: cs
    if digits = [] then
      none
    else
      match parseDigits digits 0 with
      | none => none
      | some n =>
        if neg then
          if n ≤ 2 ^ 63 then some (-(n : Int)) else none
        else
          if n < 2 ^ 63 then some (n : Int) else none

/-- Config of `config.go`. -/
structure Config where
  TeamsWebhookURL : String
  GitRepoURL : String
  GitBranch : String
  GitAuthor : String
  GitEmail : String
  ClusterName : String
  ClusterRegion : String
  EnablePodRestart : Bool
  EnableMemoryIncrease : Bool
  EnableSecurityMutations : Bool
  EnableProbeInjection : Bool
  EnableCertAlerts : Bool
  MemoryIncrementPercent : Int
  CertExpiryThresholdDays : Int
  LogLevel : String
deriving DecidableEq, Repr

/-- Helper getEnv of `config.go`. -/
def getEnv (env : Env) (key defaultVal : String) : String :=
  let value := Getenv env key
  if value != "" then value else defaultVal

/-- Helper getEnvBool of `config.go`. -/
def getEnvBool (env : Env) (key : String) (defaultVal : Bool) : Bool :=
  let val := Getenv env key
  if val == "" then
    defaultVal
  else
    match ParseBool val with
    | none => defaultVal
    | some b => b

/-- Helper getEnvInt of `config.go`. -/
def getEnvInt (env : Env) (key : String) (defaultVal : Int) : Int :=
  let val := Getenv env key
  if val == "" then
    defaultVal
  else
    match Atoi val with
    | none => defaultVal
    | some i => i

/-- LoadConfig of `config.go`. -/
def LoadConfig (env : Env) : Config :=
  { TeamsWebhookURL := getEnv env "TEAMS_WEBHOOK_URL" ""
    GitRepoURL := getEnv env "GIT_REPO_URL" ""
    GitBranch := getEnv env "GIT_BRANCH" "main"
    GitAuthor := getEnv env "GIT_AUTHOR" "auto-remediation"
    GitEmail := getEnv env "GIT_EMAIL" "auto@remediation.local"
    ClusterName := getEnv env "CLUSTER_NAME" "unknown"
    ClusterRegion := getEnv env "CLUSTER_REGION" "us-east-1"
    EnablePodRestart := getEnvBool env "ENABLE_POD_RESTART" true
    EnableMemoryIncrease := getEnvBool env "ENABLE_MEMORY_INCREASE" true
    EnableSecurityMutations := getEnvBool env "ENABLE_SECURITY_MUTATIONS" true
    EnableProbeInjection := getEnvBool env "ENABLE_PROBE_INJECTION" false
    EnableCertAlerts := getEnvBool env "ENABLE_CERT_ALERTS" true
    MemoryIncrementPercent := getEnvInt env "MEMORY_INCREMENT_PERCENT" 50
    CertExpiryThresholdDays := getEnvInt env "CERT_EXPIRY_THRESHOLD_DAYS" 7
    LogLevel := getEnv env "LOG_LEVEL" "info" }

/-! ## cmd/controller -/

/-- The pods `main` scans (`testPods`). -/
def testPods : List Pod :=
  [ { Name := "web-app-1", Namespace := "production", NodeName := "", Status := "Running",
      Restarts := 0, CPU := "500m", Memory := "512Mi", CreatedAt := 0 },
    { Name := "crashed-app", Namespace := "production", NodeName := "",
      Status := "CrashLoopBackOff", Restarts := 7, CPU := "500m", Memory := "512Mi",
      CreatedAt := 0 },
    { Name := "memory-hog", Namespace := "production", NodeName := "", Status := "OOMKilled",
      Restarts := 3, CPU := "1000m", Memory := "1024Mi", CreatedAt := 0 } ]

/-- The loop `for _, pod := range crashedPods` of `main`. `calls` lists the
arguments of the calls of `SendRemediationAlert` made so far. -/
def remediateCrashedLoop (restarter : PodRestarter) (teamsClient : TeamsClient) :
    List Pod → List RemediationAction → Out → List RemediationAction × Out
  | [], calls, out => (calls, out)
  | pod :: rest, calls, out =>
    if restarter.CanHandle pod then
      let r := restarter.Remediate pod out
      let action := r.1.1
      let err := r.1.2
      if err = none then
        let s := teamsClient.SendRemediationAlert action r.2
        remediateCrashedLoop restarter teamsClient rest (calls ++ [action]) s.2
      else
        remediateCrashedLoop restarter teamsClient rest calls r.2
    else
      remediateCrashedLoop restarter teamsClient rest calls out

/-- The loop `for _, pod := range oomPods` of `main`. -/
def remediateOOMLoop (memoryIncreaser : MemoryIncreaser) (teamsClient : TeamsClient) :
    List Pod → List RemediationAction → Out → List RemediationAction × Out
  | [], calls, out => (calls, out)
  | pod :: rest, calls, out =>
    if memoryIncreaser.CanHandle pod then
      let r := memoryIncreaser.Remediate pod out
      let action := r.1.1
      let err := r.1.2
      if err = none then
        let s := teamsClient.SendRemediationAlert action r.2
        remediateOOMLoop memoryIncreaser teamsClient rest (calls ++ [action]) s.2
      else
        remediateOOMLoop memoryIncreaser teamsClient rest calls r.2
    else
      remediateOOMLoop memoryIncreaser teamsClient rest calls out

/-- One dispatch cycle: lines 59 to 87 of `main`, with the components and the
scanned pods as parameters. The result lists the actions handed to
`SendRemediationAlert`, in call order, and the output. -/
def dispatchCycle (log : Logger) (det : Detector) (restarter : PodRestarter)
    (memoryIncreaser : MemoryIncreaser) (teamsClient : TeamsClient) (pods : List Pod)
    (out : Out) : List RemediationAction × Out :=
  let out := log.Info ("Scanning " ++ toString pods.length ++ " pods for issues...") out
  let c := det.DetectPodCrashes pods out
  let crashedPods := c.1
  let s1 : List RemediationAction × Out :=
    if crashedPods.length > 0 then
      remediateCrashedLoop restarter teamsClient crashedPods []
        (log.Info ("Found " ++ toString crashedPods.length ++ " crashed pods, remediating...") c.2)
    else
      ([], c.2)
  let o := det.DetectOOMKilled pods s1.2
  let oomPods := o.1
  if oomPods.length > 0 then
    remediateOOMLoop memoryIncreaser teamsClient oomPods s1.1
      (log.Info ("Found " ++ toString oomPods.length ++ " OOMKilled pods, remediating...") o.2)
  else
    (s1.1, o.2)

/-- The components `main` builds from a log level, an increment and a webhook
address, run on a list of pods. -/
def runCycle (logLevel : String) (memoryIncrementPercent : Int) (teamsWebhookURL : String)
    (pods : List Pod) (out : Out) : List RemediationAction × Out :=
  let log := NewLogger logLevel
  dispatchCycle log (NewDetector log) (NewPodRestarter log)
    (NewMemoryIncreaser log memoryIncrementPercent) (NewTeamsClient teamsWebhookURL log) pods out

/-! ## Predicates used to state the properties -/

/-- The crash-loop rule in the specification's words: status
`CrashLoopBackOff`, or more than 5 restarts. -/
def isCrashed (pod : Pod) : Bool :=
  pod.Status == "CrashLoopBackOff" || decide (pod.Restarts > 5)

/-- The out-of-memory rule in the specification's words: status `OOMKilled`. -/
def isOOMKilled (pod : Pod) : Bool :=
  pod.Status == "OOMKilled"

/-- Number of actions of `calls` with the given kind and target identity. -/
def countFor (calls : List RemediationAction) (kind name ns : String) : Nat :=
  (calls.filter (fun a => a.Type_ == kind && a.Pod.Name == name && a.Pod.Namespace == ns)).length

/-- Whether a string contains a line feed. -/
def hasLineFeed (s : String) : Bool :=
  s.data.contains '\n'

/-- The characters of a string after its optional leading sign. -/
def unsignedPart (s : String) : List Char :=
  match s.data with
  | [] => []
  | c :: cs => if c = '-' ∨ c = '+' then cs else c :: cs

/-- A decimal integer in the specification's words: an optional sign followed
by at least one character, all of them decimal digits. -/
def isDecimalInteger (s : String) : Bool :=
  !(unsignedPart s).isEmpty && (unsignedPart s).all Char.isDigit

/-- The number a decimal integer denotes. -/
def decimalValue (s : String) : Int :=
  let n : Nat := (unsignedPart s).foldl (fun n c => n * 10 + (c.toNat - 48)) 0
  if s.data.head? = some '-' then -(n : Int) else (n : Int)

/-- Whether a number is in the range of a 64-bit `int`. -/
def fitsInt (i : Int) : Bool :=
  decide (-(2 ^ 63 : Int) ≤ i) && decide (i < (2 ^ 63 : Int))

/-- An environment that sets `MEMORY_INCREMENT_PERCENT` and nothing else. -/
def percentEnv (v : String) : Env :=
  fun key => if key = "MEMORY_INCREMENT_PERCENT" then some v else none

/-- The environment that sets no variable. -/
def emptyEnv : Env :=
  fun _ => none

/-! ## Sample inputs -/

/-- A running pod that restarted five times. -/
def runningFive : Pod :=
  { Name := "five", Namespace := "default", NodeName := "", Status := "Running",
    Restarts := 5, CPU := "250m", Memory := "256Mi", CreatedAt := 0 }

/-- A running pod that restarted six times. -/
def runningSix : Pod :=
  { Name := "six", Namespace := "default", NodeName := "", Status := "Running",
    Restarts := 6, CPU := "250m", Memory := "256Mi", CreatedAt := 0 }

/-- The crash-looping pod of `testPods`. -/
def crashedApp : Pod :=
  { Name := "crashed-app", Namespace := "production", NodeName := "",
    Status := "CrashLoopBackOff", Restarts := 7, CPU := "500m", Memory := "512Mi",
    CreatedAt := 0 }

/-- A pod killed for lack of memory, with a request of `512Mi`. -/
def oomPod : Pod :=
  { Name := "memory-hog", Namespace := "production", NodeName := "", Status := "OOMKilled",
    Restarts := 3, CPU := "1000m", Memory := "512Mi", CreatedAt := 0 }

/-- The action `PodRestarter.Remediate` returns for `crashedApp`. -/
def restartDone : RemediationAction :=
  { ID := "", Type_ := "pod_restart", Pod := crashedApp, Status := "completed",
    Reason := "Pod was in CrashLoopBackOff", Message := "Pod restarted successfully",
    GitCommit := "", ExecutedAt := 0, RequiresApproval := false, ApprovedBy := "" }

/-- The same action with status `failed`. -/
def restartFailed : RemediationAction :=
  { restartDone with Status := "failed" }

/-- A completed action whose type holds a line feed. -/
def splitType : RemediationAction :=
  { restartDone with
    Type_ := "pod_restart\nPod: web", Pod := { crashedApp with Name := "app-1" } }

/-- A completed action whose pod name holds a line feed. -/
def splitName : RemediationAction :=
  { restartDone with
    Type_ := "pod_restart", Pod := { crashedApp with Name := "web\nPod: app-1" } }

end AutoRemediation

/-! # Cost detector

Shallow embedding of `cost-detector/pkg/alerts` and of the `CostAlert` record it
builds. Costs and thresholds (`float64` in the source) are exact rationals. -/

namespace CostDetector

/-- CostAlert of the cost detector's `models.go`. -/
structure CostAlert where
  Team : String
  Service : String
  CostPerHr : ℚ
  Message : String
  Severity : String
deriving DecidableEq, Repr

/-- Alerter of `alerts.go`. -/
structure Alerter where
  ThresholdPerHour : ℚ
deriving DecidableEq, Repr

/-- NewAlerter of `alerts.go`. -/
def NewAlerter (threshold : ℚ) : Alerter := { ThresholdPerHour := threshold }

/-- Alerter.ShouldAlert of `alerts.go`. -/
def Alerter.ShouldAlert (a : Alerter) (costPerHour : ℚ) : Bool :=
  costPerHour > a.ThresholdPerHour

/-- Alerter.CreateAlert of `alerts.go`: `Message` is not set and keeps its zero
value. -/
def Alerter.CreateAlert (a : Alerter) (team service : String) (costPerHour : ℚ) : CostAlert :=
  let severity :=
    if costPerHour > a.ThresholdPerHour * 2 then "critical"
    else if costPerHour > a.ThresholdPerHour then "warning"
    else "info"
  { Team := team
    Service := service
    CostPerHr := costPerHour
    Message := ""
    Severity := severity }

end CostDetector

namespace AutoRemediation

/-! ## Detection loops -/

theorem detectPodCrashesLoop_fst (d : Detector) (pods crashed : List Pod) (out : Out) :
    (detectPodCrashesLoop d pods crashed out).1 = crashed ++ pods.filter isCrashed := by
  induction pods generalizing crashed out with
  | nil => simp [detectPodCrashesLoop]
  | cons pod rest ih =>
    by_cases h : isCrashed pod = true
    · have h' := h
      simp only [isCrashed] at h'
      simp [detectPodCrashesLoop, h', ih, List.filter_cons, h]
    · have h' := h
      simp only [isCrashed] at h'
      simp [detectPodCrashesLoop, h', ih, List.filter_cons, h]

theorem detectOOMKilledLoop_fst (d : Detector) (pods oomPods : List Pod) (out : Out) :
    (detectOOMKilledLoop d pods oomPods out).1 = oomPods ++ pods.filter isOOMKilled := by
  induction pods generalizing oomPods out with
  | nil => simp [detectOOMKilledLoop]
  | cons pod rest ih =>
    by_cases h : isOOMKilled pod = true
    · have h' := h
      simp only [isOOMKilled] at h'
      simp [detectOOMKilledLoop, h', ih, List.filter_cons, h]
    · have h' := h
      simp only [isOOMKilled] at h'
      simp [detectOOMKilledLoop, h', ih, List.filter_cons, h]

theorem detectPodCrashes_fst (d : Detector) (pods : List Pod) (out : Out) :
    (d.DetectPodCrashes pods out).1 = pods.filter isCrashed := by
  simp [Detector.DetectPodCrashes, detectPodCrashesLoop_fst]

theorem detectOOMKilled_fst (d : Detector) (pods : List Pod) (out : Out) :
    (d.DetectOOMKilled pods out).1 = pods.filter isOOMKilled := by
  simp [Detector.DetectOOMKilled, detectOOMKilledLoop_fst]

/-! ## Remediators and the dispatch loops -/

theorem podRestarter_canHandle_eq (pr : PodRestarter) (pod : Pod) :
    pr.CanHandle pod = isCrashed pod := rfl

theorem memoryIncreaser_canHandle_eq (mi : MemoryIncreaser) (pod : Pod) :
    mi.CanHandle pod = isOOMKilled pod := rfl

theorem filter_canHandle_crashed (pr : PodRestarter) (pods : List Pod) :
    (pods.filter isCrashed).filter pr.CanHandle = pods.filter isCrashed := by
  rw [List.filter_filter]
  congr 1
  funext pod
  simp [podRestarter_canHandle_eq]

theorem filter_canHandle_oom (mi : MemoryIncreaser) (pods : List Pod) :
    (pods.filter isOOMKilled).filter mi.CanHandle = pods.filter isOOMKilled := by
  rw [List.filter_filter]
  congr 1
  funext pod
  simp [memoryIncreaser_canHandle_eq]

theorem remediateCrashedLoop_fst (pr : PodRestarter) (tc : TeamsClient)
    (pods : List Pod) (calls : List RemediationAction) (out : Out) :
    (remediateCrashedLoop pr tc pods calls out).1
      = calls ++ (pods.filter pr.CanHandle).map (fun pod => (pr.Remediate pod []).1.1) := by
  induction pods generalizing calls out with
  | nil => simp [remediateCrashedLoop]
  | cons pod rest ih =>
    by_cases h : pr.CanHandle pod = true
    · simp [remediateCrashedLoop, h, ih, List.filter_cons, PodRestarter.Remediate]
    · simp [remediateCrashedLoop, h, ih, List.filter_cons]

theorem remediateOOMLoop_fst (mi : MemoryIncreaser) (tc : TeamsClient)
    (pods : List Pod) (calls : List RemediationAction) (out : Out) :
    (remediateOOMLoop mi tc pods calls out).1
      = calls ++ (pods.filter mi.CanHandle).map (fun pod => (mi.Remediate pod []).1.1) := by
  induction pods generalizing calls out with
  | nil => simp [remediateOOMLoop]
  | cons pod rest ih =>
    by_cases h : mi.CanHandle pod = true
    · simp [remediateOOMLoop, h, ih, List.filter_cons, MemoryIncreaser.Remediate]
    · simp [remediateOOMLoop, h, ih, List.filter_cons]

/-- The actions a dispatch cycle hands to the notifier: one restart action per
pod the crash rule keeps, then one memory action per pod the out-of-memory rule
keeps, each in snapshot order. -/
theorem dispatchCycle_fst (log : Logger) (det : Detector) (pr : PodRestarter)
    (mi : MemoryIncreaser) (tc : TeamsClient) (pods : List Pod) (out : Out) :
    (dispatchCycle log det pr mi tc pods out).1
      = (pods.filter isCrashed).map (fun pod => (pr.Remediate pod []).1.1)
        ++ (pods.filter isOOMKilled).map (fun pod => (mi.Remediate pod []).1.1) := by
  have h1 : ∀ o : Out,
      (if (pods.filter isCrashed).length > 0 then
          remediateCrashedLoop pr tc (pods.filter isCrashed) []
            (log.Info ("Found " ++ toString (pods.filter isCrashed).length
              ++ " crashed pods, remediating...") o)
        else (([] : List RemediationAction), o)).1
        = (pods.filter isCrashed).map (fun pod => (pr.Remediate pod []).1.1) := by
    intro o
    split
    · rw [remediateCrashedLoop_fst, filter_canHandle_crashed]; simp
    · rename_i h
      have h0 : pods.filter isCrashed = [] := List.length_eq_zero.mp (by omega)
      simp [h0]
  simp only [dispatchCycle, detectPodCrashes_fst, detectOOMKilled_fst]
  split
  · rw [remediateOOMLoop_fst, filter_canHandle_oom, h1]
  · rename_i h
    have h0 : pods.filter isOOMKilled = [] := List.length_eq_zero.mp (by omega)
    rw [h1]
    simp [h0]

/-! ## Claims on the detector -/

/-- C1: for every snapshot and every detector, `DetectPodCrashes` returns the
order-preserving filter of the snapshot by "Status is CrashLoopBackOff or
Restarts is greater than 5"; a pod with Restarts = 5 and another status is not
in the result. -/
theorem C1_detectPodCrashes_is_filter (d : Detector) (pods : List Pod) (out : Out) :
    (d.DetectPodCrashes pods out).1
        = pods.filter (fun pod => pod.Status == "CrashLoopBackOff" || decide (pod.Restarts > 5))
      ∧ ∀ pod : Pod, pod.Restarts = 5 → pod.Status ≠ "CrashLoopBackOff" →
          pod ∉ (d.DetectPodCrashes pods out).1 := by
  refine ⟨detectPodCrashes_fst d pods out, ?_⟩
  intro pod h5 hs hmem
  rw [detectPodCrashes_fst] at hmem
  have hc := (List.mem_filter.mp hmem).2
  simp [isCrashed, h5, hs] at hc

/-- C1 at a concrete snapshot: of a pod with 5 restarts and one with 6, both
running, only the second is returned. -/
theorem C1_detectPodCrashes_is_filter_witness :
    ((NewDetector (NewLogger "info")).DetectPodCrashes [runningFive, runningSix] []).1
        = [runningSix]
      ∧ runningFive ∉
          ((NewDetector (NewLogger "info")).DetectPodCrashes [runningFive, runningSix] []).1 := by
  have h := C1_detectPodCrashes_is_filter (NewDetector (NewLogger "info"))
    [runningFive, runningSix] []
  refine ⟨?_, h.2 runningFive (by decide) (by decide)⟩
  rw [h.1]
  decide

/-- C2: for every snapshot, `DetectOOMKilled` returns the order-preserving
filter of the snapshot by "Status equals OOMKilled": exactly those pods,
unmodified, in snapshot order; the restart count plays no role. -/
theorem C2_detectOOMKilled_is_filter (d : Detector) (pods : List Pod) (out : Out) :
    (d.DetectOOMKilled pods out).1 = pods.filter (fun pod => pod.Status == "OOMKilled")
      ∧ ∀ pod : Pod, pod ∈ (d.DetectOOMKilled pods out).1 ↔
          pod ∈ pods ∧ pod.Status = "OOMKilled" := by
  refine ⟨detectOOMKilled_fst d pods out, ?_⟩
  intro pod
  rw [detectOOMKilled_fst]
  simp [List.mem_filter, isOOMKilled]

/-- C10: the reserved rules return no finding: `DetectSecurityIssues` and
`DetectMissingProbes` return the empty sequence for every snapshot, and
`DetectExpiringCerts` for every threshold. -/
theorem C10_reserved_rules_empty (d : Detector) (pods : List Pod) (threshold : Int) (out : Out) :
    (d.DetectSecurityIssues pods out).1 = []
      ∧ (d.DetectMissingProbes pods out).1 = []
      ∧ (d.DetectExpiringCerts threshold out).1 = [] :=
  ⟨rfl, rfl, rfl⟩

/-! ## Claims on the remediators -/

/-- C6: detection and strategy selection agree. A pod is in the result of
`DetectPodCrashes` exactly when it is in the snapshot and `PodRestarter.CanHandle`
accepts it, and in the result of `DetectOOMKilled` exactly when it is in the
snapshot and `MemoryIncreaser.CanHandle` accepts it; so every detected pod is
accepted by the matching remediator. -/
theorem C6_detection_agrees_with_canHandle (d : Detector) (pr : PodRestarter)
    (mi : MemoryIncreaser) (pods : List Pod) (out : Out) :
    (∀ pod : Pod, pod ∈ (d.DetectPodCrashes pods out).1 ↔ pod ∈ pods ∧ pr.CanHandle pod = true)
      ∧ (∀ pod : Pod, pod ∈ (d.DetectOOMKilled pods out).1 ↔
          pod ∈ pods ∧ mi.CanHandle pod = true)
      ∧ (∀ pod : Pod, pr.CanHandle pod = true ↔ (d.DetectPodCrashes [pod] out).1 = [pod])
      ∧ (∀ pod : Pod, mi.CanHandle pod = true ↔ (d.DetectOOMKilled [pod] out).1 = [pod])
      ∧ (d.DetectPodCrashes pods out).1.all pr.CanHandle = true
      ∧ (d.DetectOOMKilled pods out).1.all mi.CanHandle = true := by
  refine ⟨?_, ?_, ?_, ?_, ?_, ?_⟩
  · intro pod
    rw [detectPodCrashes_fst, List.mem_filter, podRestarter_canHandle_eq]
  · intro pod
    rw [detectOOMKilled_fst, List.mem_filter, memoryIncreaser_canHandle_eq]
  · intro pod
    rw [detectPodCrashes_fst, podRestarter_canHandle_eq]
    by_cases h : isCrashed pod = true <;> simp [List.filter_cons, h]
  · intro pod
    rw [detectOOMKilled_fst, memoryIncreaser_canHandle_eq]
    by_cases h : isOOMKilled pod = true <;> simp [List.filter_cons, h]
  · rw [detectPodCrashes_fst, List.all_eq_true]
    intro pod hp
    rw [podRestarter_canHandle_eq]
    exact (List.mem_filter.mp hp).2
  · rw [detectOOMKilled_fst, List.all_eq_true]
    intro pod hp
    rw [memoryIncreaser_canHandle_eq]
    exact (List.mem_filter.mp hp).2

/-- C7: for every pod, `PodRestarter.Remediate` returns a nil error and an
action of type `pod_restart`, status `completed`, whose pod is the input pod;
`MemoryIncreaser.Remediate` returns a nil error and an action of type
`memory_increase` and status `completed`. -/
theorem C7_remediate_always_completed (pr : PodRestarter) (mi : MemoryIncreaser)
    (pod : Pod) (out : Out) :
    ((pr.Remediate pod out).1.2 = none
        ∧ (pr.Remediate pod out).1.1.Type_ = "pod_restart"
        ∧ (pr.Remediate pod out).1.1.Status = "completed"
        ∧ (pr.Remediate pod out).1.1.Pod = pod)
      ∧ ((mi.Remediate pod out).1.2 = none
        ∧ (mi.Remediate pod out).1.1.Type_ = "memory_increase"
        ∧ (mi.Remediate pod out).1.1.Status = "completed") :=
  ⟨⟨rfl, rfl, rfl, rfl⟩, ⟨rfl, rfl, rfl⟩⟩

/-- C8: every action a remediator produces is completed and has
`RequiresApproval = false`, so it has `RequiresApproval = false` or a non-empty
`ApprovedBy`; the same holds of every action a dispatch cycle hands on: none has
`RequiresApproval = true` with an empty `ApprovedBy`. -/
theorem C8_no_unapproved_execution (log : Logger) (det : Detector) (pr : PodRestarter)
    (mi : MemoryIncreaser) (tc : TeamsClient) (pods : List Pod) (pod : Pod) (out : Out) :
    ((pr.Remediate pod out).1.1.Status = "completed"
        ∧ ((pr.Remediate pod out).1.1.RequiresApproval = false
            ∨ (pr.Remediate pod out).1.1.ApprovedBy ≠ ""))
      ∧ ((mi.Remediate pod out).1.1.Status = "completed"
        ∧ ((mi.Remediate pod out).1.1.RequiresApproval = false
            ∨ (mi.Remediate pod out).1.1.ApprovedBy ≠ ""))
      ∧ (dispatchCycle log det pr mi tc pods out).1.all
          (fun a => a.Status == "completed" && (!a.RequiresApproval || a.ApprovedBy != ""))
          = true := by
  refine ⟨⟨rfl, Or.inl rfl⟩, ⟨rfl, Or.inl rfl⟩, ?_⟩
  rw [dispatchCycle_fst, List.all_eq_true]
  intro a ha
  rcases List.mem_append.mp ha with h | h
  · obtain ⟨q, _, rfl⟩ := List.mem_map.mp h
    simp [PodRestarter.Remediate]
  · obtain ⟨q, _, rfl⟩ := List.mem_map.mp h
    simp [MemoryIncreaser.Remediate]

/-- C4, as stated, fails: with `incrementPercent = 50` and a memory request of
`512Mi` the returned action still carries `512Mi`, not `768Mi`, and no other
field of the action holds the increased request. -/
theorem C4_memory_request_counterexample :
    ((NewMemoryIncreaser (NewLogger "info") 50).Remediate oomPod []).1.1
        = { ID := "", Type_ := "memory_increase", Pod := oomPod, Status := "completed",
            Reason := "Pod was OOMKilled", Message := "Memory increased by 2%",
            GitCommit := "", ExecutedAt := 0, RequiresApproval := false, ApprovedBy := "" }
      ∧ ((NewMemoryIncreaser (NewLogger "info") 50).Remediate oomPod []).1.1.Pod.Memory = "512Mi"
      ∧ ((NewMemoryIncreaser (NewLogger "info") 50).Remediate oomPod []).1.1.Pod.Memory
          ≠ "768Mi" := by
  decide

/-- C4, amended: for every pod and every configured `incrementPercent`, the
action returned by `MemoryIncreaser.Remediate` carries the input pod unchanged,
so its memory request is the request `M` of the input. -/
theorem C4_memory_request_unchanged (mi : MemoryIncreaser) (pod : Pod) (out : Out) :
    (mi.Remediate pod out).1.1.Pod = pod
      ∧ (mi.Remediate pod out).1.1.Pod.Memory = pod.Memory :=
  ⟨rfl, rfl⟩

/-! ## Claims on the dispatch cycle -/

/-- C3, as stated, fails: when the same crash-looping target appears twice in
the snapshot, both occurrences are detected and the cycle produces two
`pod_restart` actions for it, not one. -/
theorem C3_duplicate_target_counterexample :
    ((NewDetector (NewLogger "info")).DetectPodCrashes [crashedApp, crashedApp] []).1
        = [crashedApp, crashedApp]
      ∧ countFor (runCycle "info" 50 "" [crashedApp, crashedApp] []).1
          "pod_restart" "crashed-app" "production" = 2
      ∧ countFor (runCycle "info" 50 "" [crashedApp, crashedApp] []).1
          "pod_restart" "crashed-app" "production" ≠ 1 := by
  decide

/-- C3, amended: one dispatch cycle records exactly one action per finding.
The recorded actions are one restart action per pod returned by the crash rule
followed by one memory action per pod returned by the out-of-memory rule, in
order; hence the number of `pod_restart` actions for a (name, namespace) is the
number of crash-looping occurrences of that target in the snapshot. -/
theorem C3_one_action_per_finding (log : Logger) (det : Detector) (pr : PodRestarter)
    (mi : MemoryIncreaser) (tc : TeamsClient) (pods : List Pod) (out : Out)
    (name ns : String) :
    (dispatchCycle log det pr mi tc pods out).1
        = (det.DetectPodCrashes pods out).1.map (fun pod => (pr.Remediate pod []).1.1)
          ++ (det.DetectOOMKilled pods out).1.map (fun pod => (mi.Remediate pod []).1.1)
      ∧ countFor (dispatchCycle log det pr mi tc pods out).1 "pod_restart" name ns
        = ((det.DetectPodCrashes pods out).1.filter
            (fun pod => pod.Name == name && pod.Namespace == ns)).length := by
  rw [dispatchCycle_fst, detectPodCrashes_fst, detectOOMKilled_fst]
  refine ⟨rfl, ?_⟩
  simp only [countFor, List.filter_append, List.length_append, List.filter_map, List.length_map]
  have h2 : (pods.filter isOOMKilled).filter
      ((fun a : RemediationAction =>
          a.Type_ == "pod_restart" && a.Pod.Name == name && a.Pod.Namespace == ns)
        ∘ fun pod => (mi.Remediate pod []).1.1) = [] := by
    rw [List.filter_eq_nil_iff]
    intro q _
    simp [MemoryIncreaser.Remediate]
  rw [h2]
  simp only [List.length_nil, Nat.add_zero]
  congr 2

/-- Two lists that agree after a first line feed agree before and after it. -/
theorem split_at_lineFeed (a b x y : List Char) (ha : '\n' ∉ a) (hb : '\n' ∉ b)
    (h : a ++ '\n' :: x = b ++ '\n' :: y) : a = b ∧ x = y := by
  induction a generalizing b with
  | nil =>
    cases b with
    | nil => simpa using h
    | cons c b' =>
      simp at h hb
      exact absurd h.1 hb.1
  | cons c a' ih =>
    cases b with
    | nil =>
      simp at h ha
      exact absurd h.1.symm ha.1
    | cons c' b' =>
      simp at h ha hb
      obtain ⟨h1, h2⟩ := ih b' ha.2 hb.2 h.2
      exact ⟨by rw [h.1, h1], h2⟩

theorem not_mem_of_hasLineFeed (s : String) (h : hasLineFeed s = false) : '\n' ∉ s.data := by
  simpa [hasLineFeed] using h

/-- The characters of the message, field by field. -/
theorem remediationMessage_data (a : RemediationAction) :
    (remediationMessage a).data
      = "✅ AUTO-REMEDIATED\nType: ".data ++ (a.Type_.data ++ '\n' :: ("Pod: ".data ++
          (a.Pod.Name.data ++ '\n' :: ("Namespace: ".data ++
            (a.Pod.Namespace.data ++ '\n' :: ("Reason: ".data ++ a.Reason.data)))))) := by
  simp [remediationMessage, String.data_append]

/-- C5, as stated, fails twice over. The status is not part of the message: a
completed and a failed action give the same message. And a field holding a line
feed is not recovered: two completed actions of different type give the same
message. -/
theorem C5_message_roundtrip_counterexample :
    (remediationMessage restartDone = remediationMessage restartFailed
        ∧ restartDone.Status ≠ restartFailed.Status)
      ∧ (remediationMessage splitType = remediationMessage splitName
        ∧ splitType.Status = "completed" ∧ splitName.Status = "completed"
        ∧ splitType.Type_ ≠ splitName.Type_
        ∧ splitType.Pod.Name ≠ splitName.Pod.Name) := by
  decide

/-- C5, amended: for any two actions whose type, pod name and pod namespace
hold no line feed, equal messages imply equal type, pod name, pod namespace and
reason. (The status is not in the message.) -/
theorem C5_message_determines_fields (a b : RemediationAction)
    (ha : hasLineFeed a.Type_ = false ∧ hasLineFeed a.Pod.Name = false
      ∧ hasLineFeed a.Pod.Namespace = false)
    (hb : hasLineFeed b.Type_ = false ∧ hasLineFeed b.Pod.Name = false
      ∧ hasLineFeed b.Pod.Namespace = false)
    (h : remediationMessage a = remediationMessage b) :
    a.Type_ = b.Type_ ∧ a.Pod.Name = b.Pod.Name ∧ a.Pod.Namespace = b.Pod.Namespace
      ∧ a.Reason = b.Reason := by
  have hd := congrArg String.data h
  rw [remediationMessage_data, remediationMessage_data] at hd
  have h0 := List.append_cancel_left hd
  obtain ⟨t, h1⟩ := split_at_lineFeed _ _ _ _
    (not_mem_of_hasLineFeed _ ha.1) (not_mem_of_hasLineFeed _ hb.1) h0
  obtain ⟨n, h2⟩ := split_at_lineFeed _ _ _ _
    (not_mem_of_hasLineFeed _ ha.2.1) (not_mem_of_hasLineFeed _ hb.2.1)
    (List.append_cancel_left h1)
  obtain ⟨m, h3⟩ := split_at_lineFeed _ _ _ _
    (not_mem_of_hasLineFeed _ ha.2.2) (not_mem_of_hasLineFeed _ hb.2.2)
    (List.append_cancel_left h2)
  exact ⟨String.ext t, String.ext n, String.ext m, String.ext (List.append_cancel_left h3)⟩

/-- C5, amended, at a concrete pair: the completed restart action and its
failed copy have line-free fields and the same message, and agree on type,
pod name, pod namespace and reason. -/
theorem C5_message_determines_fields_witness :
    remediationMessage restartDone = remediationMessage restartFailed
      ∧ restartDone.Type_ = restartFailed.Type_
      ∧ restartDone.Pod.Name = restartFailed.Pod.Name
      ∧ restartDone.Pod.Namespace = restartFailed.Pod.Namespace
      ∧ restartDone.Reason = restartFailed.Reason :=
  ⟨by decide,
    C5_message_determines_fields restartDone restartFailed (by decide) (by decide) (by decide)⟩

end AutoRemediation

namespace AutoRemediation

/-! ## Configuration -/

theorem digitValue_eq (c : Char) :
    digitValue c = if c.isDigit = true then some (c.toNat - 48) else none := by
  unfold digitValue Char.isDigit
  have h0 : ('0' : Char).toNat = 48 := rfl
  have e1 : ('0' ≤ c) ↔ c.val ≥ 48 := by
    show ('0' : Char).val ≤ c.val ↔ _
    exact Iff.rfl
  have e2 : (c ≤ '9') ↔ c.val ≤ 57 := by
    show c.val ≤ ('9' : Char).val ↔ _
    exact Iff.rfl
  simp only [e1, e2, h0, Bool.and_eq_true, decide_eq_true_eq]

theorem parseDigits_eq (ds : List Char) (n : Nat) :
    parseDigits ds n
      = if ds.all Char.isDigit = true then
          some (ds.foldl (fun n c => n * 10 + (c.toNat - 48)) n)
        else none := by
  induction ds generalizing n with
  | nil => simp [parseDigits]
  | cons c rest ih =>
    by_cases hc : c.isDigit = true
    · simp [parseDigits, digitValue_eq, hc, ih]
    · simp [parseDigits, digitValue_eq, hc]

/-- What `Atoi` accepts: the decimal integers that fit a 64-bit `int`, each
parsed to the number it denotes. -/
theorem Atoi_eq (s : String) :
    Atoi s = if isDecimalInteger s = true ∧ fitsInt (decimalValue s) = true then
        some (decimalValue s)
      else none := by
  obtain ⟨l⟩ := s
  cases l with
  | nil => simp [Atoi, isDecimalInteger, unsignedPart]
  | cons c cs =>
    by_cases hm : c = '-'
    · subst hm
      cases cs with
      | nil => simp [Atoi, isDecimalInteger, unsignedPart]
      | cons d ds =>
        simp only [Atoi, isDecimalInteger, unsignedPart, decimalValue, fitsInt, parseDigits_eq,
          true_or, if_true, List.head?_cons, List.isEmpty_cons, Bool.not_false, Bool.true_and]
        generalize List.foldl (fun n c => n * 10 + (c.toNat - 48)) 0 (d :: ds) = n
        cases hb : (d :: ds).all Char.isDigit
        · simp
        · simp
          by_cases hn : n ≤ 9223372036854775808
          · rw [if_pos hn, if_pos ⟨hn, by omega⟩]
          · rw [if_neg hn, if_neg (fun h => hn h.1)]
    · by_cases hp : c = '+'
      · subst hp
        cases cs with
        | nil => simp [Atoi, isDecimalInteger, unsignedPart]
        | cons d ds =>
          simp only [Atoi, isDecimalInteger, unsignedPart, decimalValue, fitsInt,
            parseDigits_eq, or_true, if_true, List.head?_cons, List.isEmpty_cons,
            Bool.not_false, Bool.true_and]
          generalize List.foldl (fun n c => n * 10 + (c.toNat - 48)) 0 (d :: ds) = n
          cases hb : (d :: ds).all Char.isDigit
          · simp
          · simp
            by_cases hn : n < 9223372036854775808
            · rw [if_pos hn, if_pos ⟨by omega, hn⟩]
            · rw [if_neg hn, if_neg (fun h => hn h.2)]
      · simp only [Atoi, isDecimalInteger, unsignedPart, decimalValue, fitsInt, parseDigits_eq,
          hm, hp, or_self, if_false, List.head?_cons, List.isEmpty_cons, Bool.not_false,
          Bool.true_and]
        generalize List.foldl (fun n c => n * 10 + (c.toNat - 48)) 0 (c :: cs) = n
        cases hb : (c :: cs).all Char.isDigit
        · simp
        · simp [hm]
          by_cases hn : n < 9223372036854775808
          · rw [if_pos hn, if_pos ⟨by omega, hn⟩]
          · rw [if_neg hn, if_neg (fun h => hn h.2)]

theorem Atoi_empty : Atoi "" = none := rfl

/-- The two failure tests of `getEnvInt` amount to one: the empty string does
not parse either. -/
theorem getEnvInt_eq (env : Env) (key : String) (defaultVal : Int) :
    getEnvInt env key defaultVal = (Atoi (Getenv env key)).getD defaultVal := by
  unfold getEnvInt
  by_cases h : Getenv env key = ""
  · simp [h, Atoi_empty]
  · simp only [beq_iff_eq, h, if_false]
    cases Atoi (Getenv env key) <;> rfl

/-- C11, as stated, fails twice over. A decimal integer outside the range of
`int` is not parsed: `9223372036854775808` gives the default 50, not the number
it denotes. And the default is also returned for a value that parses: with the
value `50` and the default 50, `getEnvInt` returns 50 although the value is not
empty and parses. -/
theorem C11_decimal_integer_counterexample :
    (isDecimalInteger "9223372036854775808" = true
        ∧ decimalValue "9223372036854775808" = 9223372036854775808
        ∧ (LoadConfig (percentEnv "9223372036854775808")).MemoryIncrementPercent = 50
        ∧ (LoadConfig (percentEnv "9223372036854775808")).MemoryIncrementPercent
            ≠ decimalValue "9223372036854775808")
      ∧ (Getenv (percentEnv "50") "MEMORY_INCREMENT_PERCENT" ≠ ""
        ∧ Atoi (Getenv (percentEnv "50") "MEMORY_INCREMENT_PERCENT") = some 50
        ∧ getEnvInt (percentEnv "50") "MEMORY_INCREMENT_PERCENT" 50 = 50) := by
  decide

/-- C11, amended: with the environment as an explicit map, `LoadConfig` sets
`MemoryIncrementPercent` to the default 50 when `MEMORY_INCREMENT_PERCENT` is
unset, empty, not a decimal integer, or a decimal integer outside the range of
`int`, and to the number it denotes otherwise. `getEnvInt` returns its default
when the value is empty or fails to parse and the parsed integer otherwise;
parsing fails exactly for what is not a decimal integer in the range of `int`;
so the result is the default exactly when the value is empty, fails to parse,
or parses to the default itself. -/
theorem C11_loadConfig_default_or_value (env : Env) (key : String) (defaultVal : Int) :
    (LoadConfig env).MemoryIncrementPercent
        = (if env "MEMORY_INCREMENT_PERCENT" = none ∨ env "MEMORY_INCREMENT_PERCENT" = some ""
              ∨ isDecimalInteger (Getenv env "MEMORY_INCREMENT_PERCENT") = false
              ∨ fitsInt (decimalValue (Getenv env "MEMORY_INCREMENT_PERCENT")) = false then
            50
          else decimalValue (Getenv env "MEMORY_INCREMENT_PERCENT"))
      ∧ getEnvInt env key defaultVal
        = (if Getenv env key = "" ∨ Atoi (Getenv env key) = none then defaultVal
          else decimalValue (Getenv env key))
      ∧ (∀ v : String, Atoi v = none ↔
          (isDecimalInteger v = false ∨ fitsInt (decimalValue v) = false))
      ∧ (∀ (v : String) (i : Int), Atoi v = some i → i = decimalValue v)
      ∧ (getEnvInt env key defaultVal = defaultVal ↔
          (Getenv env key = "" ∨ Atoi (Getenv env key) = none
            ∨ Atoi (Getenv env key) = some defaultVal)) := by
  have hnone : ∀ v : String, Atoi v = none ↔
      (isDecimalInteger v = false ∨ fitsInt (decimalValue v) = false) := by
    intro v
    rw [Atoi_eq]
    cases isDecimalInteger v <;> cases fitsInt (decimalValue v) <;> simp
  have hsome : ∀ (v : String) (i : Int), Atoi v = some i → i = decimalValue v := by
    intro v i hv
    rw [Atoi_eq] at hv
    split at hv
    · exact (Option.some.inj hv).symm
    · exact absurd hv (by simp)
  have hget : ∀ (k : String) (d : Int), getEnvInt env k d
      = (if Getenv env k = "" ∨ Atoi (Getenv env k) = none then d
        else decimalValue (Getenv env k)) := by
    intro k d
    rw [getEnvInt_eq]
    cases ha : Atoi (Getenv env k) with
    | none => simp
    | some i =>
      have hne : Getenv env k ≠ "" := by
        intro he
        rw [he, Atoi_empty] at ha
        exact absurd ha (by simp)
      simp [hne, hsome _ _ ha]
  refine ⟨?_, hget key defaultVal, hnone, hsome, ?_⟩
  · have h1 : (LoadConfig env).MemoryIncrementPercent
        = getEnvInt env "MEMORY_INCREMENT_PERCENT" 50 := rfl
    rw [h1, hget]
    have hcond : (Getenv env "MEMORY_INCREMENT_PERCENT" = ""
          ∨ Atoi (Getenv env "MEMORY_INCREMENT_PERCENT") = none)
        ↔ (env "MEMORY_INCREMENT_PERCENT" = none ∨ env "MEMORY_INCREMENT_PERCENT" = some ""
          ∨ isDecimalInteger (Getenv env "MEMORY_INCREMENT_PERCENT") = false
          ∨ fitsInt (decimalValue (Getenv env "MEMORY_INCREMENT_PERCENT")) = false) := by
      rw [hnone]
      constructor
      · rintro (h | h)
        · right; right; left
          rw [h]
          rfl
        · exact Or.inr (Or.inr h)
      · rintro (h | h | h)
        · left
          simp [Getenv, h]
        · left
          simp [Getenv, h]
        · exact Or.inr h
    by_cases hc : Getenv env "MEMORY_INCREMENT_PERCENT" = ""
        ∨ Atoi (Getenv env "MEMORY_INCREMENT_PERCENT") = none
    · rw [if_pos hc, if_pos (hcond.mp hc)]
    · rw [if_neg hc, if_neg (fun h => hc (hcond.mpr h))]
  · rw [getEnvInt_eq]
    cases ha : Atoi (Getenv env key) with
    | none => simp
    | some i =>
      have hne : Getenv env key ≠ "" := by
        intro he
        rw [he, Atoi_empty] at ha
        exact absurd ha (by simp)
      simp [hne]

/-- C11, amended, at concrete environments: unset, empty and `abc` give 50, a
digit string too large for `int` gives 50, `75` gives 75 and `-5` gives -5. -/
theorem C11_loadConfig_default_or_value_witness :
    (LoadConfig emptyEnv).MemoryIncrementPercent = 50
      ∧ (LoadConfig (percentEnv "")).MemoryIncrementPercent = 50
      ∧ (LoadConfig (percentEnv "abc")).MemoryIncrementPercent = 50
      ∧ (LoadConfig (percentEnv "9223372036854775808")).MemoryIncrementPercent = 50
      ∧ (LoadConfig (percentEnv "75")).MemoryIncrementPercent = 75
      ∧ (LoadConfig (percentEnv "-5")).MemoryIncrementPercent = -5 :=
  ⟨(C11_loadConfig_default_or_value emptyEnv "MEMORY_INCREMENT_PERCENT" 50).1.trans
      (by decide),
    (C11_loadConfig_default_or_value (percentEnv "") "MEMORY_INCREMENT_PERCENT" 50).1.trans
      (by decide),
    (C11_loadConfig_default_or_value (percentEnv "abc") "MEMORY_INCREMENT_PERCENT" 50).1.trans
      (by decide),
    (C11_loadConfig_default_or_value (percentEnv "9223372036854775808")
      "MEMORY_INCREMENT_PERCENT" 50).1.trans (by decide),
    (C11_loadConfig_default_or_value (percentEnv "75") "MEMORY_INCREMENT_PERCENT" 50).1.trans
      (by decide),
    (C11_loadConfig_default_or_value (percentEnv "-5") "MEMORY_INCREMENT_PERCENT" 50).1.trans
      (by decide)⟩

/-! ## The message of the memory remediation -/

/-- C12, evaluated on the code: with `incrementPercent = 50` the message is
`Memory increased by 2%`, the character of code 50 standing where the decimal
representation `50` is claimed; and for every `incrementPercent` the message
holds a single character between `Memory increased by ` and `%`. -/
theorem C12_message_is_one_character :
    ((NewMemoryIncreaser (NewLogger "info") 50).Remediate oomPod []).1.1.Message
        = "Memory increased by 2%"
      ∧ ((NewMemoryIncreaser (NewLogger "info") 50).Remediate oomPod []).1.1.Message
        ≠ "Memory increased by 50%"
      ∧ ∀ (mi : MemoryIncreaser) (pod : Pod) (out : Out), ∃ c : Char,
          (mi.Remediate pod out).1.1.Message
            = "Memory increased by " ++ String.singleton c ++ "%" := by
  refine ⟨by decide, by decide, ?_⟩
  intro mi pod out
  simp only [MemoryIncreaser.Remediate, runeString]
  split
  · exact ⟨_, rfl⟩
  · exact ⟨_, rfl⟩

end AutoRemediation

namespace CostDetector

/-! ## Alert decision and severity -/

theorem severity_eq (a : Alerter) (team service : String) (cost : ℚ) :
    (a.CreateAlert team service cost).Severity
      = if cost > a.ThresholdPerHour * 2 then "critical"
        else if cost > a.ThresholdPerHour then "warning" else "info" := rfl

/-- C13: with exact rational costs and a threshold that is not negative,
`ShouldAlert cost` is true exactly when the severity of `CreateAlert` is not
`info`; the severity is `critical` exactly when `cost > 2 * threshold` and
`warning` exactly when `threshold < cost ≤ 2 * threshold`; team, service and
cost are copied unchanged into the alert. -/
theorem C13_alert_decision_agrees_with_severity (a : Alerter) (team service : String)
    (cost : ℚ) (h : 0 ≤ a.ThresholdPerHour) :
    (a.ShouldAlert cost = true ↔ (a.CreateAlert team service cost).Severity ≠ "info")
      ∧ ((a.CreateAlert team service cost).Severity = "critical" ↔
          cost > 2 * a.ThresholdPerHour)
      ∧ ((a.CreateAlert team service cost).Severity = "warning" ↔
          a.ThresholdPerHour < cost ∧ cost ≤ 2 * a.ThresholdPerHour)
      ∧ (a.CreateAlert team service cost).Team = team
      ∧ (a.CreateAlert team service cost).Service = service
      ∧ (a.CreateAlert team service cost).CostPerHr = cost := by
  have hcw : ("critical" : String) ≠ "warning" := by decide
  have hci : ("critical" : String) ≠ "info" := by decide
  have hwi : ("warning" : String) ≠ "info" := by decide
  refine ⟨?_, ?_, ?_, rfl, rfl, rfl⟩
  · rw [severity_eq]
    simp only [Alerter.ShouldAlert, decide_eq_true_eq]
    by_cases h2 : cost > a.ThresholdPerHour * 2
    · rw [if_pos h2]
      exact ⟨fun _ => hci, fun _ => by linarith⟩
    · rw [if_neg h2]
      by_cases h1 : cost > a.ThresholdPerHour
      · rw [if_pos h1]
        exact ⟨fun _ => hwi, fun _ => h1⟩
      · rw [if_neg h1]
        exact ⟨fun hc => absurd hc h1, fun hc => absurd rfl hc⟩
  · rw [severity_eq]
    by_cases h2 : cost > a.ThresholdPerHour * 2
    · rw [if_pos h2]
      exact ⟨fun _ => by linarith, fun _ => rfl⟩
    · rw [if_neg h2]
      by_cases h1 : cost > a.ThresholdPerHour
      · rw [if_pos h1]
        exact ⟨fun hc => absurd hc.symm hcw, fun hc => absurd (by linarith) h2⟩
      · rw [if_neg h1]
        exact ⟨fun hc => absurd hc.symm hci, fun hc => absurd (by linarith) h2⟩
  · rw [severity_eq]
    by_cases h2 : cost > a.ThresholdPerHour * 2
    · rw [if_pos h2]
      exact ⟨fun hc => absurd hc hcw, fun hc => absurd hc.2 (by linarith)⟩
    · rw [if_neg h2]
      by_cases h1 : cost > a.ThresholdPerHour
      · rw [if_pos h1]
        exact ⟨fun _ => ⟨h1, by linarith⟩, fun _ => rfl⟩
      · rw [if_neg h1]
        exact ⟨fun hc => absurd hc.symm hwi, fun hc => absurd hc.1 h1⟩

/-- C13 at a threshold of 50: a cost of 75 alerts with severity `warning`, a
cost of 120 alerts with severity `critical`, and a cost of 50 does not alert;
the alert for `app-1` carries team, service and cost. -/
theorem C13_alert_decision_agrees_with_severity_witness :
    ((NewAlerter 50).CreateAlert "platform-team" "app-1" 75).Severity = "warning"
      ∧ ((NewAlerter 50).CreateAlert "platform-team" "app-1" 120).Severity = "critical"
      ∧ (NewAlerter 50).ShouldAlert 50 = false
      ∧ ((NewAlerter 50).CreateAlert "platform-team" "app-1" 75).CostPerHr = 75 :=
  ⟨(C13_alert_decision_agrees_with_severity (NewAlerter 50) "platform-team" "app-1" 75
      (by norm_num [NewAlerter])).2.2.1.mpr (by norm_num [NewAlerter]),
    (C13_alert_decision_agrees_with_severity (NewAlerter 50) "platform-team" "app-1" 120
      (by norm_num [NewAlerter])).2.1.mpr (by norm_num [NewAlerter]),
    by simp [Alerter.ShouldAlert, NewAlerter],
    (C13_alert_decision_agrees_with_severity (NewAlerter 50) "platform-team" "app-1" 75
      (by norm_num [NewAlerter])).2.2.2.2.2⟩

end CostDetector
